import Mathlib

/-!
Shallow embedding of the orchestration core of the `creative-ai-agent`
repository: the backoff executor (`src/services/upload.js`), the rotation
cursors, dedup window and the three autonomous forum pipelines
(`src/unnamed/part_000`), and the relevance scorer and candidate selector
(`src/agent/superteam.js`).  JavaScript strings are modelled as `String`,
nullable values as `Option`, machine numbers as `Nat`/`Int`, and the
JS truthiness tests that the source relies on are made explicit.
-/

set_option maxRecDepth 4000

-- ==========================================
-- JS-value helpers
-- ==========================================

/-- Truthiness of a nullable JS string: `null`/`undefined` and `''` are falsy. -/
def strTruthy : Option String → Bool
  | none => false
  | some s => !s.isEmpty

/-- JS `a || b` for strings: `a` when truthy, else `b`. -/
def jsOr (a b : String) : String :=
  if a.isEmpty then b else a

/-- JS `a || b` where `a` is a nullable string. -/
def jsOrOpt (a : Option String) (b : String) : String :=
  match a with
  | none => b
  | some s => if s.isEmpty then b else s

/-- JS `n || null` for a nullable number (`0` is falsy and becomes `null`). -/
def jsOrNullNat : Option Nat → Option Nat
  | none => none
  | some n => if n = 0 then none else some n

-- ==========================================
-- Backoff executor (src/services/upload.js, UploadService.retry, lines 30-45)
-- ==========================================

/-- Body of the `for (let attempt = 1; attempt <= maxRetries; attempt++)` loop of
`UploadService.retry`.  The list argument is the remaining attempt numbers
(`retry` passes `[1, ..., maxRetries]`).  Each attempt invokes the operation
(`outcomes attempt`); on success the loop returns; on failure, if
`attempt < maxRetries` the loop waits `delayMs * 2 ^ (attempt - 1)` and
continues, otherwise the loop ends and the last error is thrown.  The result
records the outcome, the number of invocations made, and the list of waits
performed (in ms). -/
def retryLoop (outcomes : Nat → Except E A) (delayMs maxRetries : Nat)
    (lastError : Option E) : List Nat → Except (Option E) A × Nat × List Nat
  | [] => (Except.error lastError, 0, [])
  | attempt :: rest =>
    match outcomes attempt with
    | Except.ok a => (Except.ok a, 1, [])
    | Except.error e =>
      if attempt < maxRetries then
        let r := retryLoop outcomes delayMs maxRetries (some e) rest
        (r.1, r.2.1 + 1, delayMs * 2 ^ (attempt - 1) :: r.2.2)
      else (Except.error (some e), 1, [])

/-- `UploadService.retry(fn, maxRetries, delayMs)`: run the attempts
`1, ..., maxRetries` with `lastError` initially unset (`undefined`). -/
def retry (outcomes : Nat → Except E A) (maxRetries delayMs : Nat) :
    Except (Option E) A × Nat × List Nat :=
  retryLoop outcomes delayMs maxRetries none (List.range' 1 maxRetries)

-- ==========================================
-- Rotation cursor (src/unnamed/part_000)
-- ==========================================

/-- `X_NEWS_ACCOUNTS` (part_000 lines 244-250). -/
def X_NEWS_ACCOUNTS : List String :=
  ["solana", "dexteraisol", "zauthx402", "payainetwork", "relayaisolana"]

/-- `IMAGE_MODELS` (part_000 line 253). -/
def IMAGE_MODELS : List String := ["nano-banana", "seedream", "grok-imagine"]

/-- The selection step of the rotation cursor:
`options[index % options.length]` (part_000 lines 404 and 541).  JS indexing
out of range yields `undefined`, modelled by the default `d`. -/
def rotationSelect (options : List String) (d : String) (index : Nat) : String :=
  options.getD (index % options.length) d

/-- The options selected by `n` successive non-forced triggers starting from
stored index `index`: each trigger selects, then increments the stored index
by 1 (select-then-advance, part_000 lines 404-405 and 541-542). -/
def rotationSeq (options : List String) (d : String) (index : Nat) : Nat → List String
  | 0 => []
  | n + 1 => rotationSelect options d index :: rotationSeq options d (index + 1) n

-- ==========================================
-- Dedup window (src/unnamed/part_000, trackNewsUrl, lines 265-273)
-- ==========================================

/-- `MAX_RECENT` (part_000 line 266). -/
def MAX_RECENT : Nat := 30

/-- `trackNewsUrl(url)`, parameterised by the capacity constant: if `url` is
truthy it is pushed to the back of the window, and if the length then exceeds
the capacity one entry is shifted off the front.  A falsy `url`
(`null`/`undefined`/`''`) leaves the window untouched. -/
def trackNewsUrl (maxRecent : Nat) (url : Option String) (window : List String) :
    List String :=
  if strTruthy url then
    let w := window ++ [url.getD ""]
    if maxRecent < w.length then w.drop 1 else w
  else window

/-- `recentNewsUrls.includes(item.news_url)` where the checked URL is nullable:
`includes(null)` on a list of strings is `false`. -/
def windowMember (window : List String) : Option String → Bool
  | none => false
  | some s => window.contains s

-- ==========================================
-- Relevance scorer (src/agent/superteam.js, lines 351-382)
-- ==========================================

/-- Substring test on character lists, the semantics of JS
`String.prototype.includes`. -/
def containsSub (needle : List Char) : List Char → Bool
  | [] => needle.isEmpty
  | c :: t => needle.isPrefixOf (c :: t) || containsSub needle t

/-- JS `hay.includes(sub)`. -/
def jsIncludes (hay sub : String) : Bool :=
  containsSub sub.data hay.data

/-- JS `s.toLowerCase()` (the keyword table and listing text are ASCII, where
`Char.toLower` agrees with the JS case fold). -/
def toLowerStr (s : String) : String :=
  String.mk (s.data.map Char.toLower)

/-- `SuperteamEarnAgent.CAPABILITY_KEYWORDS` (superteam.js lines 351-359);
`Object.entries` iterates the seven categories in this insertion order. -/
def CAPABILITY_KEYWORDS : List (String × List String) :=
  [("image", ["image", "design", "graphic", "visual", "banner", "logo",
              "illustration", "creative", "art"]),
   ("video", ["video", "animation", "motion", "clip"]),
   ("defi", ["defi", "token", "trading", "analytics", "pumpfun", "dex",
             "swap", "market"]),
   ("ai", ["ai", "artificial intelligence", "machine learning", "generate",
           "generation"]),
   ("solana", ["solana", "spl", "sol", "blockchain", "web3", "on-chain"]),
   ("agent", ["agent", "autonomous", "bot", "automation"]),
   ("content", ["content", "write", "article", "blog", "newsletter", "news",
                "social media"])]

/-- A listing as consumed by `scoreListing`; absent JS fields are the
coalesced `''`. -/
structure Listing where
  title : String
  description : String
  slug : String
deriving DecidableEq

/-- The case-folded haystack `` `${listing.title || ''} ${listing.description
|| ''} ${listing.slug || ''}`.toLowerCase() `` (superteam.js line 367). -/
def listingText (l : Listing) : String :=
  toLowerStr (l.title ++ " " ++ l.description ++ " " ++ l.slug)

/-- Whether a category of the table has at least one keyword contained in the
text — the inner `for (const kw of keywords) { if (text.includes(kw)) { ...;
break; } }` loop of `scoreListing`. -/
def categoryMatches (text : String) (cat : String × List String) : Bool :=
  cat.2.any (fun kw => jsIncludes text kw)

/-- `scoreListing(listing)` (superteam.js lines 366-382): fold over the
capability table, adding 1 to the score and appending the category label on
the first matching keyword of each category (the `break` makes at most one
increment per category). -/
def scoreListing (l : Listing) : Nat × List String :=
  let text := listingText l
  CAPABILITY_KEYWORDS.foldl
    (fun acc cat =>
      if categoryMatches text cat then (acc.1 + 1, acc.2 ++ [cat.1]) else acc)
    (0, [])

-- ==========================================
-- Candidate selector (src/agent/superteam.js, scanAndSubmit, lines 441-453)
-- ==========================================

/-- A listing carrying the score attached by
`.map(listing => ({...listing, ...this.scoreListing(listing)}))`. -/
structure ScoredListing where
  id : String
  score : Nat
deriving DecidableEq

/-- Stable sort, descending by a `Nat` key: the behaviour of the ES2019+
stable `Array.prototype.sort((a, b) => b.score - a.score)`.  Insertion sort
with `key y ≤ key x` places each element before those of equal key that were
originally to its right, i.e. ties keep their original relative order. -/
def sortDescBy (key : α → Nat) (l : List α) : List α :=
  List.insertionSort (fun x y => key y ≤ key x) l

/-- The candidate-selection pipeline of `scanAndSubmit` (superteam.js lines
441-453), parameterised by the threshold, already-submitted set and cap:
filter by score, filter out already-submitted ids, stable-sort by score
descending, truncate. -/
def selectCandidates (minScore : Nat) (submitted : List String) (maxPerCycle : Nat)
    (items : List ScoredListing) : List ScoredListing :=
  (sortDescBy (fun l => l.score)
      ((items.filter (fun l => minScore ≤ l.score)).filter
        (fun l => !submitted.contains l.id))).take maxPerCycle

/-- `scanAndSubmit` instantiates the selection with `score >= 2` and
`slice(0, 3)`. -/
def scanAndSubmitCandidates (submitted : List String) (items : List ScoredListing) :
    List ScoredListing :=
  selectCandidates 2 submitted 3 items

-- ==========================================
-- Forum posting (src/unnamed/part_000, postToForum, lines 279-285;
-- ColosseumAgent.createForumPost, colosseum.js lines 157-173)
-- ==========================================

/-- An agent handle as seen by `postToForum`.  `none` is the preview case
(`agent` argument is `null`, no publish call is made).  `some r` models a
present agent whose `createForumPost` is invoked: `createForumPost` catches
every error and returns `null` on failure, so `r` is the nullable post id
`res.data.post?.id` (`none` for a failed publish or a response without an
id). -/
def postToForum (agent : Option (Option Nat)) (title body : String) :
    Option Nat × List (String × String) :=
  match agent with
  | none => (none, [])
  | some r => (r, [(title, body)])

-- ==========================================
-- Pipeline 1: X News (src/unnamed/part_000, lines 294-462)
-- ==========================================

/-- A raw news item of the JSON parsed from the Grok response, with the field
coalescing of lines 344-351 already applied to alternative field names
(`post_url`/`url`, `tweet_content`/`content`, `created_at`): `news_url` is the
coalesced nullable URL, `text` the coalesced text (`''` when absent), `date`
the coalesced timestamp (modelled as `Nat`), `title` and `sentiment` the raw
nullable fields. -/
structure RawNewsItem where
  news_url : Option String
  title : Option String
  text : String
  date : Nat
  sentiment : Option String
deriving DecidableEq

/-- The JSON object parsed from the Grok `x_search` response. -/
structure ParsedNews where
  news : List RawNewsItem
  profile_image_url : Option String
deriving DecidableEq

/-- A normalised news item (part_000 lines 344-351). -/
structure NewsItem where
  news_url : Option String
  title : String
  text : String
  source_name : String
  date : Nat
  sentiment : String
deriving DecidableEq

instance : Inhabited NewsItem := ⟨⟨none, "", "", "", 0, ""⟩⟩

/-- The mapping of line 344-351: `title: item.title || (item.text ||
'').substring(0, 100)`, `sentiment: item.sentiment || 'Neutral'`. -/
def normalizeItem (username : String) (r : RawNewsItem) : NewsItem :=
  { news_url := r.news_url
    title := jsOrOpt r.title (r.text.take 100)
    text := r.text
    source_name := username
    date := r.date
    sentiment := jsOrOpt r.sentiment "Neutral" }

/-- `fetchLatestNews(username)` (part_000 lines 294-359) given the parsed
Grok response (`none` when `parseJsonFromResponse` returned `null`): map the
raw items, keep those with non-empty text, then drop items whose URL is
already in the dedup window.  Returns `(newsItems, profileImageUrl)`. -/
def fetchLatestNews (parsed : Option ParsedNews) (username : String)
    (window : List String) : List NewsItem × Option String :=
  match parsed with
  | none => ([], none)
  | some p =>
    let items := ((p.news.map (normalizeItem username)).filter
        (fun i => 0 < i.text.length)).filter
      (fun i => !windowMember window i.news_url)
    (items, if strTruthy p.profile_image_url then p.profile_image_url else none)

/-- `generateNewsTitle` (part_000 lines 364-377): the Grok-produced title when
the call succeeded with a truthy `title` field, else the fallback
`(topNews.title || topNews.text || 'News Update').split(' ').slice(0, 4).join(' ')`. -/
def generateNewsTitle (grokTitle : Option String) (topNews : NewsItem) : String :=
  match grokTitle with
  | some t => if t.isEmpty then newsTitleFallback topNews else t
  | none => newsTitleFallback topNews
where
  newsTitleFallback (topNews : NewsItem) : String :=
    String.intercalate " "
      (((jsOr topNews.title (jsOr topNews.text "News Update")).splitOn " ").take 4)

/-- The forum body of `runXNewsPost` (part_000 lines 432-444): the line array
is joined after `filter(Boolean)`, which drops the `''` separator lines and a
missing banner line. -/
def buildXNewsBody (title : String) (topNews : NewsItem) (bannerUrl : Option String)
    (username : String) : String :=
  String.intercalate "\n"
    (["## " ++ title,
      "",
      topNews.text,
      "",
      (if strTruthy bannerUrl then "![News Banner](" ++ bannerUrl.getD "" ++ ")" else ""),
      "",
      "**Source:** " ++ jsOrOpt topNews.news_url ("https://x.com/" ++ username),
      "**Sentiment:** " ++ topNews.sentiment,
      "",
      "---",
      "*Autonomously curated by Xona Agent — fetching latest Solana ecosystem news from X*"].filter
      (fun l => !l.isEmpty))

/-- The external responses a single `runXNewsPost` invocation consumes:
`fetchResponse` is the Grok `x_search` call (`Except.error` when the call
throws, `Except.ok none` when its output parses to nothing), `grokTitle` the
title call of `generateNewsTitle` (`none` when it threw or returned no truthy
title), `bannerUrl` the result of `generateNewsBanner` (`none` when image
generation failed, lines 382-396). -/
structure XNewsEnv where
  fetchResponse : Except String (Option ParsedNews)
  grokTitle : Option String
  bannerUrl : Option String

/-- The module-level mutable state touched by the X News pipeline:
`recentNewsUrls` and `xNewsIndex` (part_000 lines 256, 265). -/
structure XNewsState where
  window : List String
  idx : Nat
deriving DecidableEq

/-- The value `runXNewsPost` resolves with: the early `{ success: false, ... }`
return when no news was found, or the success record (its `title`/`body` are
the forum title and body; `forumPostId` is `forumResult?.post?.id || null`). -/
inductive XNewsResult where
  | failure (message : String)
  | success (title body : String) (forumPostId : Option Nat)
deriving DecidableEq

/-- One `runXNewsPost(agent, forceAccount)` invocation (part_000 lines
403-462): the selected username, the settled result (`Except.error` when the
fetch threw), the module state afterwards, and the publish calls made. -/
structure XNewsRun where
  username : String
  result : Except String XNewsResult
  state : XNewsState
  publishCalls : List (String × String)

/-- `runXNewsPost` (part_000 lines 403-462).  Selection and cursor advance
happen first (lines 404-405); a thrown fetch propagates (state keeps the
advanced cursor, window untouched); an empty novel-news list returns the
failure record; otherwise the newest item is taken (stable sort by date
descending, line 419), title/banner/body are built, `postToForum` is called,
and `trackNewsUrl(topNews.news_url)` runs unconditionally afterwards
(line 450) — also when `agent` was `null` or the publish returned `null`. -/
def runXNewsPost (env : XNewsEnv) (agent : Option (Option Nat))
    (forceAccount : Option String) (s : XNewsState) : XNewsRun :=
  let username :=
    if strTruthy forceAccount then forceAccount.getD ""
    else rotationSelect X_NEWS_ACCOUNTS "" s.idx
  let idx1 := if strTruthy forceAccount then s.idx else s.idx + 1
  match env.fetchResponse with
  | Except.error e => ⟨username, Except.error e, ⟨s.window, idx1⟩, []⟩
  | Except.ok parsed =>
    let newsItems := (fetchLatestNews parsed username s.window).1
    if newsItems.isEmpty then
      ⟨username, Except.ok (XNewsResult.failure ("No news found for @" ++ username)),
        ⟨s.window, idx1⟩, []⟩
    else
      let topNews := (sortDescBy (fun i => i.date) newsItems).headD default
      let title := generateNewsTitle env.grokTitle topNews
      let bannerUrl := env.bannerUrl
      let forumTitle := "📡 Latest from @" ++ username ++ ": " ++ title
      let forumBody := buildXNewsBody title topNews bannerUrl username
      let pub := postToForum agent forumTitle forumBody
      let window1 := trackNewsUrl MAX_RECENT topNews.news_url s.window
      ⟨username,
        Except.ok (XNewsResult.success forumTitle forumBody (jsOrNullNat pub.1)),
        ⟨window1, idx1⟩, pub.2⟩

/-- `previewXNews(forceAccount)` (part_000 lines 725-727): the live pipeline
with a `null` agent. -/
def previewXNews (env : XNewsEnv) (forceAccount : Option String) (s : XNewsState) :
    XNewsRun :=
  runXNewsPost env none forceAccount s

-- ==========================================
-- Pipeline 2: Image Showcase (src/unnamed/part_000, lines 471-612)
-- ==========================================

/-- The `modelNames` lookup with fallback `modelNames[modelKey] || modelKey`
(part_000 lines 501-506 and 544-549). -/
def modelDisplayName (k : String) : String :=
  if k == "nano-banana" then "Google Nano Banana"
  else if k == "seedream" then "ByteDance Seedream 4.5"
  else if k == "grok-imagine" then "xAI Grok Imagine"
  else k

/-- External responses of one `runImageShowcase` invocation: `theme` is the
`Math.random()` pick from the theme list, `grokPrompt`/`grokReview` the Grok
calls of `generateCreativePrompt`/`generateModelReview` (`none` when the call
threw or returned no truthy field), `imageUrl` the `generateImage` result. -/
structure ShowcaseEnv where
  theme : String
  grokPrompt : Option String
  imageUrl : String
  grokReview : Option String
deriving DecidableEq

/-- `generateCreativePrompt` (part_000 lines 471-495): the Grok prompt when
truthy, else the fallback template. -/
def creativePrompt (env : ShowcaseEnv) : String :=
  match env.grokPrompt with
  | some p => if p.isEmpty then creativePromptFallback env.theme else p
  | none => creativePromptFallback env.theme
where
  creativePromptFallback (theme : String) : String :=
    "A breathtaking visualization of " ++ theme ++
      " with neon gradients, glowing particles, and futuristic elements in a cinematic 4K style"

/-- `generateModelReview` (part_000 lines 500-533): the Grok review when
truthy, else the fallback template. -/
def generateModelReview (grokReview : Option String) (modelKey theme : String) :
    String :=
  match grokReview with
  | some r => if r.isEmpty then reviewFallback modelKey theme else r
  | none => reviewFallback modelKey theme
where
  reviewFallback (modelKey theme : String) : String :=
    "Generated with " ++ modelDisplayName modelKey ++ ". The model handles the \"" ++
      theme ++
      "\" theme well, producing vivid colors and coherent composition. Detail level is solid for the prompt complexity. Overall a strong showing of current AI image generation capabilities."

/-- The showcase forum body (part_000 lines 571-593); this array is joined
with `join('\n')` (no `filter(Boolean)`), so the empty separator lines stay. -/
def buildShowcaseBody (modelKey prompt theme imageUrl review : String) : String :=
  String.intercalate "\n"
    ["## " ++ modelDisplayName modelKey ++ " — Image Generation Review",
     "",
     "![Generated Image](" ++ imageUrl ++ ")",
     "",
     "**Prompt:** \"" ++ prompt ++ "\"",
     "",
     "**Model:** " ++ modelDisplayName modelKey,
     "**Theme:** " ++ theme,
     "",
     "### Review",
     "",
     review,
     "",
     "---",
     "Want to generate your own? Use our free API:",
     "```",
     "POST /generate-image",
     "\x7b \"prompt\": \"" ++ prompt.take 80 ++ "...\", \"model\": \"" ++ modelKey ++ "\" \x7d",
     "```",
     "",
     "*Autonomously generated by Xona Agent — showcasing AI model capabilities*"]

/-- Module-level state of the showcase pipeline: `modelIndex` (line 257). -/
structure ShowcaseState where
  modelIndex : Nat
deriving DecidableEq

/-- The success record `runImageShowcase` resolves with (it has no
no-data failure branch). -/
structure ShowcaseResult where
  title : String
  body : String
  forumPostId : Option Nat
deriving DecidableEq

/-- One `runImageShowcase(agent, forceModel)` invocation. -/
structure ShowcaseRun where
  modelKey : String
  result : ShowcaseResult
  state : ShowcaseState
  publishCalls : List (String × String)
deriving DecidableEq

/-- `runImageShowcase` (part_000 lines 540-612): select-then-advance on
`IMAGE_MODELS` (advance skipped under a truthy `forceModel`), generate
prompt/image/review option from the environment, build title and body, call
`postToForum`. -/
def runImageShowcase (env : ShowcaseEnv) (agent : Option (Option Nat))
    (forceModel : Option String) (s : ShowcaseState) : ShowcaseRun :=
  let modelKey :=
    if strTruthy forceModel then forceModel.getD ""
    else rotationSelect IMAGE_MODELS "" s.modelIndex
  let idx1 := if strTruthy forceModel then s.modelIndex else s.modelIndex + 1
  let prompt := creativePrompt env
  let review := generateModelReview env.grokReview modelKey env.theme
  let forumTitle :=
    "🎨 AI Image Showcase: " ++ modelDisplayName modelKey ++ " — \"" ++ env.theme ++ "\""
  let forumBody := buildShowcaseBody modelKey prompt env.theme env.imageUrl review
  let pub := postToForum agent forumTitle forumBody
  ⟨modelKey, ⟨forumTitle, forumBody, jsOrNullNat pub.1⟩, ⟨idx1⟩, pub.2⟩

/-- `previewImageShowcase(forceModel)` (part_000 lines 732-734). -/
def previewImageShowcase (env : ShowcaseEnv) (forceModel : Option String)
    (s : ShowcaseState) : ShowcaseRun :=
  runImageShowcase env none forceModel s

-- ==========================================
-- Pipeline 3: PumpFun Intel (src/unnamed/part_000, lines 621-716)
-- ==========================================

/-- A token of the PumpFun data, with the fields used by
`formatTokenMarkdown` (part_000 lines 621-641).  The price-change numbers are
kept as their rendered strings (they are only ever interpolated into text);
`none` models an absent (`null`/`undefined`) field. -/
structure PumpToken where
  name : Option String
  ticker : Option String
  mc : Option String
  p5m : Option String
  p1h : Option String
  p6h : Option String
  p24h : Option String
  ca : Option String
  icon : Option String
  icon_description : Option String
  twitter : Option String
  website : Option String
deriving DecidableEq

/-- A conditional markdown line `cond ? render(v) : null` guarded by JS
truthiness of a nullable string field. -/
def optLine (v : Option String) (render : String → String) : Option String :=
  match v with
  | none => none
  | some s => if s.isEmpty then none else some (render s)

/-- JS template interpolation of a possibly-undefined value
(`${token.ticker}` renders as the string `undefined` when absent). -/
def jsRender (v : Option String) : String :=
  v.getD "undefined"

/-- `formatTokenMarkdown(token, index)` (part_000 lines 621-641): the price
changes collected in the order 5m/1h/6h/24h (a `!= null` check, so `''` would
be kept — hence `Option.map`, not `optLine`), the line array filtered with
`filter(Boolean)` (dropping `null` lines and the `''` separator) and joined. -/
def formatTokenMarkdown (t : PumpToken) (index : Nat) : String :=
  let priceChanges :=
    ((t.p5m.map (fun v => "5m: " ++ v ++ "%")).toList ++
      (t.p1h.map (fun v => "1h: " ++ v ++ "%")).toList ++
      (t.p6h.map (fun v => "6h: " ++ v ++ "%")).toList ++
      (t.p24h.map (fun v => "24h: " ++ v ++ "%")).toList)
  let lines : List (Option String) :=
    [some ("### " ++ toString (index + 1) ++ ". " ++ jsOrOpt t.name "Unknown" ++
        " ($" ++ jsOrOpt t.ticker "???" ++ ")"),
     some "",
     some ("- **Market Cap:** " ++ jsOrOpt t.mc "N/A"),
     (if priceChanges.length > 0 then
        some ("- **Price Changes:** " ++ String.intercalate " | " priceChanges)
      else none),
     optLine t.ca (fun v => "- **CA:** `" ++ v ++ "`"),
     optLine t.icon (fun v => "- **Icon:** ![" ++ jsRender t.ticker ++ "](" ++ v ++ ")"),
     optLine t.icon_description (fun v => "- **Icon Description:** " ++ v),
     optLine t.twitter (fun v => "- **Twitter:** " ++ v),
     optLine t.website (fun v => "- **Website:** " ++ v)]
  String.intercalate "\n" ((lines.filterMap id).filter (fun l => !l.isEmpty))

/-- The response of `getTrending(10)` / `getMovers(10)`:
`trending_tokens` / `movers_tokens` (absent and empty both end the run),
`summary` and `suggestions`. -/
structure PumpData where
  tokens : List PumpToken
  summary : Option String
  suggestions : List String
deriving DecidableEq

/-- External inputs of one `runPumpFunPost` invocation; `nowDate` is
`new Date().toISOString().split('T')[0]` and `nowIso` the full ISO stamp. -/
structure PumpFunEnv where
  trending : PumpData
  movers : PumpData
  nowDate : String
  nowIso : String
deriving DecidableEq

/-- Module-level state of the PumpFun pipeline: the alternating
`pumpfunType` string, initially `'trending'` (line 258). -/
structure PumpFunState where
  pumpfunType : String
deriving DecidableEq

/-- The record `runPumpFunPost` resolves with. -/
inductive PumpFunResult where
  | failure (message : String)
  | success (title body : String) (forumPostId : Option Nat)
deriving DecidableEq

/-- One `runPumpFunPost(agent, forceType)` invocation. -/
structure PumpFunRun where
  usedType : String
  result : PumpFunResult
  state : PumpFunState
  publishCalls : List (String × String)
deriving DecidableEq

/-- The PumpFun forum body (part_000 lines 678-699), joined after
`filter(Boolean)`. -/
def buildPumpFunBody (emoji label : String) (data : PumpData) (nowIso : String)
    (typeStr : String) : String :=
  let tokensList :=
    String.intercalate "\n\n"
      (((List.range data.tokens.length).zip data.tokens).map
        (fun p => formatTokenMarkdown p.2 p.1))
  String.intercalate "\n"
    (["## " ++ emoji ++ " PumpFun " ++ label,
      "*Updated: " ++ nowIso ++ "*",
      "",
      "### AI Analysis",
      "",
      jsOrOpt data.summary "No summary available.",
      "",
      (if data.suggestions.length > 0 then
        "### Suggestions\n\n" ++
          String.intercalate "\n" (data.suggestions.map (fun s => "- " ++ s))
      else ""),
      "",
      "### Token List (" ++ toString data.tokens.length ++ ")",
      "",
      tokensList,
      "",
      "---",
      "*Data sourced from PumpFun + DexScreener, enriched with AI analysis by Xona Agent*",
      "",
      "Want real-time data? Use our free API:",
      "```",
      "GET /pumpfun/" ++ typeStr ++ "?limit=10",
      "```"].filter (fun l => !l.isEmpty))

/-- `runPumpFunPost` (part_000 lines 648-716): the type is `forceType ||
pumpfunType`; without a truthy `forceType` the stored flag alternates for
the next run; the trending/movers data is fetched, an empty token list ends
the run with the failure record, otherwise title and body are built and
`postToForum` is called. -/
def runPumpFunPost (env : PumpFunEnv) (agent : Option (Option Nat))
    (forceType : Option String) (s : PumpFunState) : PumpFunRun :=
  let type := if strTruthy forceType then forceType.getD "" else s.pumpfunType
  let s1 : PumpFunState :=
    if strTruthy forceType then s
    else ⟨if s.pumpfunType == "trending" then "movers" else "trending"⟩
  let isTrending := type == "trending"
  let label := if isTrending then "Trending Tokens" else "Top Movers"
  let data := if isTrending then env.trending else env.movers
  if data.tokens.isEmpty then
    ⟨type, PumpFunResult.failure ("No " ++ label ++ " data available"), s1, []⟩
  else
    let emoji := if isTrending then "🚀" else "📈"
    let forumTitle := emoji ++ " PumpFun " ++ label ++ " — " ++ env.nowDate
    let forumBody := buildPumpFunBody emoji label data env.nowIso type
    let pub := postToForum agent forumTitle forumBody
    ⟨type, PumpFunResult.success forumTitle forumBody (jsOrNullNat pub.1), s1, pub.2⟩

/-- `previewPumpFun(forceType)` (part_000 lines 739-741). -/
def previewPumpFun (env : PumpFunEnv) (forceType : Option String) (s : PumpFunState) :
    PumpFunRun :=
  runPumpFunPost env none forceType s

-- ==========================================
-- Cron triggers (src/unnamed/part_000, startCron, lines 756-797)
-- ==========================================

/-- In-flight invocation counts of the three cron-driven pipelines.  Each
pipeline has its own `cron.schedule` job whose callback invokes that
pipeline's run function; `node-cron` fires the callback at every matching
wall-clock time without awaiting a still-pending previous invocation, and
the callbacks (lines 764-791) consult no running/in-flight state before
invoking the pipeline. -/
structure CronState where
  xNewsInFlight : Nat
  showcaseInFlight : Nat
  pumpfunInFlight : Nat
deriving DecidableEq

/-- A firing of the X News cron job (lines 764-771): the callback starts a
new `runXNewsPost` invocation unconditionally. -/
def xNewsCronTrigger (s : CronState) : CronState :=
  { s with xNewsInFlight := s.xNewsInFlight + 1 }

/-- A firing of the Image Showcase cron job (lines 774-781). -/
def showcaseCronTrigger (s : CronState) : CronState :=
  { s with showcaseInFlight := s.showcaseInFlight + 1 }

/-- A firing of the PumpFun cron job (lines 784-791). -/
def pumpfunCronTrigger (s : CronState) : CronState :=
  { s with pumpfunInFlight := s.pumpfunInFlight + 1 }

-- ==========================================
-- Helper lemmas
-- ==========================================

theorem rotationSeq_length (options : List String) (d : String) :
    ∀ (n i : Nat), (rotationSeq options d i n).length = n := by
  intro n
  induction n with
  | zero => intro i; rfl
  | succ m ih => intro i; simp [rotationSeq, ih]

theorem rotationSeq_getD (options : List String) (d dd : String) :
    ∀ (n i k : Nat), k < n →
      (rotationSeq options d i n).getD k dd = rotationSelect options d (i + k) := by
  intro n
  induction n with
  | zero => intro i k hk; omega
  | succ m ih =>
    intro i k hk
    cases k with
    | zero => simp [rotationSeq]
    | succ k₀ =>
      have h := ih (i + 1) k₀ (by omega)
      simp only [rotationSeq, List.getD_cons_succ]
      rw [h]
      congr 1
      omega

theorem retryLoop_cons_ok (outcomes : Nat → Except E A) (d m attempt : Nat)
    (a : A) (le : Option E) (rest : List Nat)
    (hok : outcomes attempt = Except.ok a) :
    retryLoop outcomes d m le (attempt :: rest) = (Except.ok a, 1, []) := by
  rw [retryLoop, hok]

theorem retryLoop_cons_error (outcomes : Nat → Except E A) (d m attempt : Nat)
    (e : E) (le : Option E) (rest : List Nat)
    (herr : outcomes attempt = Except.error e) (ham : attempt < m) :
    retryLoop outcomes d m le (attempt :: rest) =
      ((retryLoop outcomes d m (some e) rest).1,
       (retryLoop outcomes d m (some e) rest).2.1 + 1,
       d * 2 ^ (attempt - 1) :: (retryLoop outcomes d m (some e) rest).2.2) := by
  rw [retryLoop, herr]
  simp only [if_pos ham]

theorem retryLoop_cons_error_last (outcomes : Nat → Except E A)
    (d m attempt : Nat) (e : E) (le : Option E) (rest : List Nat)
    (herr : outcomes attempt = Except.error e) (ham : ¬attempt < m) :
    retryLoop outcomes d m le (attempt :: rest) = (Except.error (some e), 1, []) := by
  rw [retryLoop, herr]
  simp only [if_neg ham]

theorem retryLoop_ok (outcomes : Nat → Except E A) (d m k : Nat) (a : A)
    (errs : Nat → E) (hsucc : outcomes k = Except.ok a) (hkm : k ≤ m) :
    ∀ (t attempt : Nat) (le : Option E), 1 ≤ attempt → attempt + t = k →
      (∀ j, attempt ≤ j → j < k → outcomes j = Except.error (errs j)) →
      retryLoop outcomes d m le (List.range' attempt (m + 1 - attempt)) =
        (Except.ok a, t + 1, (List.range' (attempt - 1) t).map (fun i => d * 2 ^ i)) := by
  intro t
  induction t with
  | zero =>
    intro attempt le h1 hsum _
    have ha : k = attempt := by omega
    subst ha
    have hm : m + 1 - k = (m - k) + 1 := by omega
    rw [hm, List.range'_succ, retryLoop_cons_ok outcomes d m k a le _ hsucc]
    simp
  | succ t₀ ih =>
    intro attempt le h1 hsum hfail
    have hak : attempt < k := by omega
    have ham : attempt < m := by omega
    have hm : m + 1 - attempt = (m - attempt) + 1 := by omega
    have herr : outcomes attempt = Except.error (errs attempt) :=
      hfail attempt (Nat.le_refl _) hak
    rw [hm, List.range'_succ,
      retryLoop_cons_error outcomes d m attempt (errs attempt) le _ herr ham]
    have hrest : m - attempt = m + 1 - (attempt + 1) := by omega
    have hih := ih (attempt + 1) (some (errs attempt)) (by omega) (by omega)
      (fun j hj hjk => hfail j (by omega) hjk)
    rw [hrest, hih]
    have h3 : attempt - 1 + 1 = attempt := by omega
    have h2 : List.range' (attempt - 1) (t₀ + 1) =
        (attempt - 1) :: List.range' attempt t₀ := by
      rw [List.range'_succ, h3]
    simp [h2]

theorem retryLoop_allFail (outcomes : Nat → Except E A) (d m : Nat)
    (errs : Nat → E)
    (hfail : ∀ j, 1 ≤ j → j ≤ m → outcomes j = Except.error (errs j)) :
    ∀ (t attempt : Nat) (le : Option E), 1 ≤ attempt → attempt + t = m →
      retryLoop outcomes d m le (List.range' attempt (m + 1 - attempt)) =
        (Except.error (some (errs m)), t + 1,
          (List.range' (attempt - 1) t).map (fun i => d * 2 ^ i)) := by
  intro t
  induction t with
  | zero =>
    intro attempt le h1 hsum
    have ha : m = attempt := by omega
    subst ha
    have hm : m + 1 - m = 1 := by omega
    rw [hm, List.range'_succ,
      retryLoop_cons_error_last outcomes d m m (errs m) le _
        (hfail m h1 (Nat.le_refl _)) (by omega)]
    simp
  | succ t₀ ih =>
    intro attempt le h1 hsum
    have ham : attempt < m := by omega
    have hm : m + 1 - attempt = (m - attempt) + 1 := by omega
    rw [hm, List.range'_succ,
      retryLoop_cons_error outcomes d m attempt (errs attempt) le _
        (hfail attempt h1 (by omega)) ham]
    have hrest : m - attempt = m + 1 - (attempt + 1) := by omega
    have hih := ih (attempt + 1) (some (errs attempt)) (by omega) (by omega)
    rw [hrest, hih]
    have h3 : attempt - 1 + 1 = attempt := by omega
    have h2 : List.range' (attempt - 1) (t₀ + 1) =
        (attempt - 1) :: List.range' attempt t₀ := by
      rw [List.range'_succ, h3]
    simp [h2]

theorem orderedInsert_pairwise (key : α → Nat) (x : α) :
    ∀ l : List α, List.Pairwise (fun a b => key b ≤ key a) l →
      List.Pairwise (fun a b => key b ≤ key a)
        (List.orderedInsert (fun a b => key b ≤ key a) x l) := by
  intro l
  induction l with
  | nil => intro _; simp
  | cons b t ih =>
    intro h
    rcases List.pairwise_cons.mp h with ⟨hb, ht⟩
    rw [List.orderedInsert]
    by_cases hbx : key b ≤ key x
    · rw [if_pos hbx]
      refine List.pairwise_cons.mpr ⟨?_, h⟩
      intro y hy
      rcases List.mem_cons.mp hy with hyb | hyt
      · subst hyb; exact hbx
      · exact Nat.le_trans (hb y hyt) hbx
    · rw [if_neg hbx]
      refine List.pairwise_cons.mpr ⟨?_, ih ht⟩
      intro y hy
      rcases (List.mem_orderedInsert _).mp hy with hyx | hyt
      · subst hyx; exact Nat.le_of_lt (Nat.lt_of_not_le hbx)
      · exact hb y hyt

theorem sortDescBy_pairwise (key : α → Nat) (l : List α) :
    List.Pairwise (fun a b => key b ≤ key a) (sortDescBy key l) := by
  induction l with
  | nil => simp [sortDescBy]
  | cons a t ih =>
    simpa [sortDescBy, List.insertionSort] using
      orderedInsert_pairwise key a _ ih

theorem orderedInsert_filter_pos (key : α → Nat) (x : α) (s : Nat)
    (hx : key x = s) :
    ∀ l : List α,
      (List.orderedInsert (fun a b => key b ≤ key a) x l).filter
          (fun y => key y == s) =
        x :: l.filter (fun y => key y == s) := by
  intro l
  induction l with
  | nil => simp [List.orderedInsert, List.filter, hx]
  | cons b t ih =>
    rw [List.orderedInsert]
    by_cases hbx : key b ≤ key x
    · rw [if_pos hbx]
      simp [List.filter, hx]
    · rw [if_neg hbx]
      have hbs : (key b == s) = false := by
        simp only [beq_eq_false_iff_ne]
        omega
      simp [List.filter_cons, hbs, ih]

theorem orderedInsert_filter_neg (key : α → Nat) (x : α) (s : Nat)
    (hx : ¬key x = s) :
    ∀ l : List α,
      (List.orderedInsert (fun a b => key b ≤ key a) x l).filter
          (fun y => key y == s) =
        l.filter (fun y => key y == s) := by
  have hxs : (key x == s) = false := by
    simp only [beq_eq_false_iff_ne]
    exact hx
  intro l
  induction l with
  | nil => simp [List.orderedInsert, List.filter, hxs]
  | cons b t ih =>
    rw [List.orderedInsert]
    by_cases hbx : key b ≤ key x
    · rw [if_pos hbx]
      simp [List.filter_cons, hxs]
    · rw [if_neg hbx]
      simp [List.filter_cons, ih]

theorem sortDescBy_filter_eq (key : α → Nat) (s : Nat) (l : List α) :
    (sortDescBy key l).filter (fun y => key y == s) =
      l.filter (fun y => key y == s) := by
  induction l with
  | nil => rfl
  | cons a t ih =>
    simp only [sortDescBy, List.insertionSort] at *
    by_cases hs : key a = s
    · rw [orderedInsert_filter_pos key a s hs _, ih, List.filter_cons]
      simp [hs]
    · rw [orderedInsert_filter_neg key a s hs _, ih, List.filter_cons]
      have : (key a == s) = false := by
        simp only [beq_eq_false_iff_ne]
        exact hs
      simp [this]

theorem scoreFold (p : String × List String → Bool) :
    ∀ (table : List (String × List String)) (n : Nat) (acc : List String),
      table.foldl (fun a c => if p c then (a.1 + 1, a.2 ++ [c.1]) else a) (n, acc) =
        (n + (table.filter p).length, acc ++ (table.filter p).map Prod.fst) := by
  intro table
  induction table with
  | nil => intro n acc; simp
  | cons c t ih =>
    intro n acc
    by_cases hc : p c
    · simp only [List.foldl_cons, hc, if_pos, List.filter_cons, ih]
      simp [hc, Nat.add_comm, Nat.add_assoc, Nat.add_left_comm]
    · simp only [List.foldl_cons, hc, if_neg, List.filter_cons, ih]
      simp [hc]

-- ==========================================
-- Claim theorems
-- ==========================================

/-- C1: Rotation cursor select-then-advance: a non-forced `runXNewsPost`
(resp. `runImageShowcase`) trigger selects `options[index % len(options)]`
and then increments the stored index by exactly 1, and `n` successive
non-forced triggers starting from any index select `options[(index + k) %
len]` at step `k`; over `[a, b, c]` from index 0 the selected sequence is
`a, b, c, a, b, c, ...` of length `n`. -/
theorem c1_rotation_select_then_advance :
    (∀ (env : XNewsEnv) (agent : Option (Option Nat)) (s : XNewsState),
      (runXNewsPost env agent none s).username =
          rotationSelect X_NEWS_ACCOUNTS "" s.idx ∧
        (runXNewsPost env agent none s).state.idx = s.idx + 1) ∧
    (∀ (env : ShowcaseEnv) (agent : Option (Option Nat)) (s : ShowcaseState),
      (runImageShowcase env agent none s).modelKey =
          rotationSelect IMAGE_MODELS "" s.modelIndex ∧
        (runImageShowcase env agent none s).state.modelIndex = s.modelIndex + 1) ∧
    (∀ (options : List String) (d dd : String) (n i k : Nat), k < n →
      ((rotationSeq options d i n).length = n ∧
        (rotationSeq options d i n).getD k dd =
          options.getD ((i + k) % options.length) d)) ∧
    (∀ (a b c d dd : String) (n k : Nat), k < n →
      (rotationSeq [a, b, c] d 0 n).getD k dd = [a, b, c].getD (k % 3) d) := by
  refine ⟨?_, ?_, ?_, ?_⟩
  · intro env agent s
    rcases env with ⟨fr, gt, bu⟩
    cases fr with
    | error e => exact ⟨rfl, rfl⟩
    | ok parsed =>
      by_cases h :
          (fetchLatestNews parsed (rotationSelect X_NEWS_ACCOUNTS "" s.idx) s.window).1.isEmpty <;>
        simp [runXNewsPost, strTruthy, h]
  · intro env agent s
    exact ⟨rfl, rfl⟩
  · intro options d dd n i k hk
    exact ⟨rotationSeq_length options d n i,
      rotationSeq_getD options d dd n i k hk⟩
  · intro a b c d dd n k hk
    have h := rotationSeq_getD [a, b, c] d dd n 0 k hk
    simpa [rotationSelect] using h

/-- C1 witness: concrete instances of each hypothesis-bearing part. -/
theorem c1_witness :
    (rotationSeq ["a", "b", "c"] "z" 0 7).getD 4 "w" = ["a", "b", "c"].getD (4 % 3) "z" ∧
    (runXNewsPost ⟨Except.ok none, none, none⟩ none none ⟨[], 6⟩).username =
      rotationSelect X_NEWS_ACCOUNTS "" 6 ∧
    (runXNewsPost ⟨Except.ok none, none, none⟩ none none ⟨[], 6⟩).state.idx = 7 :=
  ⟨c1_rotation_select_then_advance.2.2.2 "a" "b" "c" "z" "w" 7 4 (by decide),
   (c1_rotation_select_then_advance.1 ⟨Except.ok none, none, none⟩ none ⟨[], 6⟩).1,
   (c1_rotation_select_then_advance.1 ⟨Except.ok none, none, none⟩ none ⟨[], 6⟩).2⟩

/-- C3: Relevance scorer: the score is the number of categories of the
capability table with at least one keyword contained in the case-folded
listing text (one increment per category), the matched-category list is
those categories in table order, and the score is bounded by the number of
categories, which is 7. -/
theorem c3_relevance_scorer :
    ∀ l : Listing,
      (scoreListing l).1 =
          (CAPABILITY_KEYWORDS.filter (categoryMatches (listingText l))).length ∧
        (scoreListing l).2 =
          (CAPABILITY_KEYWORDS.filter (categoryMatches (listingText l))).map Prod.fst ∧
        (scoreListing l).1 ≤ 7 ∧
        CAPABILITY_KEYWORDS.length = 7 := by
  intro l
  have h := scoreFold (categoryMatches (listingText l)) CAPABILITY_KEYWORDS 0 []
  have hfst : (scoreListing l).1 =
      (CAPABILITY_KEYWORDS.filter (categoryMatches (listingText l))).length := by
    simp [scoreListing, h]
  refine ⟨hfst, ?_, ?_, rfl⟩
  · simp [scoreListing, h]
  · rw [hfst]
    have := List.length_filter_le (categoryMatches (listingText l)) CAPABILITY_KEYWORDS
    simpa using this

/-- C4: Dedup window bounded FIFO: recording never grows the window beyond
the capacity; at capacity a record drops the oldest (front) entry and
appends the new one at the back — the same equation whether or not the
identifier is already present (no LRU refresh, as the duplicate-record
conjunct shows concretely); with capacity 3, recording `x1, x2, x3, x4`
leaves `[x2, x3, x4]`, which no longer contains `x1` but contains `x4`. -/
theorem c4_dedup_window_bounded_fifo :
    (∀ (maxRecent : Nat) (url : Option String) (window : List String),
      window.length ≤ maxRecent →
        (trackNewsUrl maxRecent url window).length ≤ maxRecent) ∧
    (∀ (maxRecent : Nat) (u : String) (window : List String),
      window.length = maxRecent → 1 ≤ maxRecent → ¬u.isEmpty →
        trackNewsUrl maxRecent (some u) window = window.drop 1 ++ [u]) ∧
    (["x1", "x2", "x3", "x4"].foldl (fun w u => trackNewsUrl 3 (some u) w) [] =
      ["x2", "x3", "x4"]) ∧
    (windowMember
        (["x1", "x2", "x3", "x4"].foldl (fun w u => trackNewsUrl 3 (some u) w) [])
        (some "x1") = false) ∧
    (windowMember
        (["x1", "x2", "x3", "x4"].foldl (fun w u => trackNewsUrl 3 (some u) w) [])
        (some "x4") = true) ∧
    (trackNewsUrl 3 (some "x1") ["x1", "x2"] = ["x1", "x2", "x1"]) := by
  refine ⟨?_, ?_, by decide, by decide, by decide, by decide⟩
  · intro maxRecent url window hlen
    unfold trackNewsUrl
    cases hst : strTruthy url with
    | false => simpa using hlen
    | true =>
      simp only [if_pos]
      by_cases hover : maxRecent < (window ++ [url.getD ""]).length
      · rw [if_pos hover]
        simp
        omega
      · rw [if_neg hover]
        simp at hover ⊢
        omega
  · intro maxRecent u window hlen hcap hu
    match window, hlen with
    | c :: rest, hlen =>
      unfold trackNewsUrl
      have hst : strTruthy (some u) = true := by
        simp [strTruthy, hu]
      rw [if_pos hst]
      have hover : maxRecent < ((c :: rest) ++ [u]).length := by
        simp at hlen ⊢
        omega
      simp only [Option.getD_some, if_pos hover]
      simp
    | [], hlen =>
      exfalso
      simp at hlen
      omega

/-- C4 witness: the hypothesis-bearing parts at concrete inputs. -/
theorem c4_witness :
    (trackNewsUrl 3 (some "y") ["a", "b", "c"]).length ≤ 3 ∧
    trackNewsUrl 3 (some "y") ["a", "b", "c"] = ["a", "b", "c"].drop 1 ++ ["y"] :=
  ⟨c4_dedup_window_bounded_fifo.1 3 (some "y") ["a", "b", "c"] (by decide),
   c4_dedup_window_bounded_fifo.2.1 3 "y" ["a", "b", "c"] (by decide) (by decide)
     (by decide)⟩

/-- C6: Backoff executor: when the operation first succeeds on attempt
`k ≤ m`, `retry` invokes it exactly `k` times, returns that success, and
waits `d * 2 ^ (attempt - 1)` before each of the `k - 1` retries; when all
`m ≥ 1` attempts fail, it invokes the operation exactly `m` times and fails
with the last error. -/
theorem c6_backoff_executor (outcomes : Nat → Except E A) (m d k : Nat) (a : A)
    (errs : Nat → E) :
    (1 ≤ k → k ≤ m →
      (∀ j, 1 ≤ j → j < k → outcomes j = Except.error (errs j)) →
      outcomes k = Except.ok a →
      retry outcomes m d =
        (Except.ok a, k, (List.range' 0 (k - 1)).map (fun i => d * 2 ^ i))) ∧
    (1 ≤ m → (∀ j, 1 ≤ j → j ≤ m → outcomes j = Except.error (errs j)) →
      retry outcomes m d =
        (Except.error (some (errs m)), m,
          (List.range' 0 (m - 1)).map (fun i => d * 2 ^ i))) := by
  constructor
  · intro hk hkm hfail hsucc
    have h := retryLoop_ok outcomes d m k a errs hsucc hkm (k - 1) 1 none
      (Nat.le_refl 1) (by omega) (fun j hj hjk => hfail j hj hjk)
    unfold retry
    have hm1 : m + 1 - 1 = m := by omega
    rw [hm1] at h
    rw [h]
    have hk1 : k - 1 + 1 = k := by omega
    rw [hk1]
  · intro hm hfail
    have h := retryLoop_allFail outcomes d m errs hfail (m - 1) 1 none
      (Nat.le_refl 1) (by omega)
    unfold retry
    have hm1 : m + 1 - 1 = m := by omega
    rw [hm1] at h
    rw [h]
    have hm2 : m - 1 + 1 = m := by omega
    rw [hm2]

/-- C6 witness: with `maxRetries = 3`, `delayMs = 100`, an operation failing
twice then succeeding is invoked exactly 3 times, waits 100 ms and 200 ms,
and the final result is the success; an always-failing operation is invoked
exactly 3 times and fails with the third error. -/
theorem c6_witness :
    retry (fun j => if j ≤ 2 then Except.error (toString j) else Except.ok 42) 3 100 =
        (Except.ok 42, 3, [100, 200]) ∧
    retry (fun j => (Except.error (toString j) : Except String Nat)) 3 100 =
        (Except.error (some "3"), 3, [100, 200]) := by
  constructor
  · have h := (c6_backoff_executor
        (fun j => if j ≤ 2 then Except.error (toString j) else Except.ok 42)
        3 100 3 42 (fun j => toString j)).1
        (by decide) (by decide)
        (fun j h1 h2 => by
          have : j = 1 ∨ j = 2 := by omega
          rcases this with h | h <;> subst h <;> rfl)
        (by rfl)
    simpa using h
  · have h := (c6_backoff_executor
        (fun j => (Except.error (toString j) : Except String Nat))
        3 100 0 0 (fun j => toString j)).2
        (by decide)
        (fun j h1 h2 => rfl)
    simpa using h

/-- C7 counterexample: the claim says a trigger that fires while the same
pipeline is already in flight is a no-op, but the cron callback of
`startCron` starts a new invocation unconditionally: from a state with one
X News invocation in flight, a trigger yields two, not the same state. -/
theorem c7_counterexample :
    ¬(xNewsCronTrigger ⟨1, 0, 0⟩ = (⟨1, 0, 0⟩ : CronState)) := by
  decide

/-- C7 amended: each cron trigger unconditionally starts one more in-flight
invocation of its own pipeline (there is no overlap guard), and leaves the
other pipelines' in-flight invocations unchanged (the pipelines are
independently scheduled). -/
theorem c7_amended_triggers_unguarded_and_independent :
    ∀ s : CronState,
      (xNewsCronTrigger s).xNewsInFlight = s.xNewsInFlight + 1 ∧
      (xNewsCronTrigger s).showcaseInFlight = s.showcaseInFlight ∧
      (xNewsCronTrigger s).pumpfunInFlight = s.pumpfunInFlight ∧
      (showcaseCronTrigger s).showcaseInFlight = s.showcaseInFlight + 1 ∧
      (showcaseCronTrigger s).xNewsInFlight = s.xNewsInFlight ∧
      (showcaseCronTrigger s).pumpfunInFlight = s.pumpfunInFlight ∧
      (pumpfunCronTrigger s).pumpfunInFlight = s.pumpfunInFlight + 1 ∧
      (pumpfunCronTrigger s).xNewsInFlight = s.xNewsInFlight ∧
      (pumpfunCronTrigger s).showcaseInFlight = s.showcaseInFlight := by
  intro s
  refine ⟨rfl, rfl, rfl, rfl, rfl, rfl, rfl, rfl, rfl⟩

/-- C10: Recording a falsy identifier (`null`/`undefined` or the empty
string, e.g. a news item whose URL could not be extracted) leaves the dedup
window completely unchanged — no null entry is ever inserted. -/
theorem c10_record_falsy_noop :
    ∀ (maxRecent : Nat) (window : List String),
      trackNewsUrl maxRecent none window = window ∧
      trackNewsUrl maxRecent (some "") window = window := by
  intro maxRecent window
  constructor <;> rfl

/-- C2: Candidate selection: the selected list is the batch filtered by
`score >= minScore`, then by not-already-submitted, stable-sorted by score
descending and truncated to `maxPerCycle`; hence it never exceeds the cap,
contains only qualifying items, is sorted descending, ties keep their
original relative order (the per-score restriction of the sort equals that
of the input), `scanAndSubmit` instantiates `minScore = 2`, cap `3`, scores
`[5, 5, 3, 1]` with cap 2 select the two score-5 items in original order,
and an empty batch selects the empty list. -/
theorem c2_candidate_selection :
    (∀ (minScore : Nat) (submitted : List String) (maxPerCycle : Nat)
        (items : List ScoredListing),
      (selectCandidates minScore submitted maxPerCycle items).length ≤ maxPerCycle) ∧
    (∀ (minScore : Nat) (submitted : List String) (maxPerCycle : Nat)
        (items : List ScoredListing) (x : ScoredListing),
      x ∈ selectCandidates minScore submitted maxPerCycle items →
        x ∈ items ∧ minScore ≤ x.score ∧ submitted.contains x.id = false) ∧
    (∀ (minScore : Nat) (submitted : List String) (maxPerCycle : Nat)
        (items : List ScoredListing),
      List.Pairwise (fun a b => b.score ≤ a.score)
        (selectCandidates minScore submitted maxPerCycle items)) ∧
    (∀ (l : List ScoredListing) (s : Nat),
      (sortDescBy (fun x => x.score) l).filter (fun x => x.score == s) =
        l.filter (fun x => x.score == s)) ∧
    (∀ (submitted : List String) (items : List ScoredListing),
      scanAndSubmitCandidates submitted items = selectCandidates 2 submitted 3 items) ∧
    (selectCandidates 2 [] 2 [⟨"A", 5⟩, ⟨"B", 5⟩, ⟨"C", 3⟩, ⟨"D", 1⟩] =
      [⟨"A", 5⟩, ⟨"B", 5⟩]) ∧
    (∀ (minScore : Nat) (submitted : List String) (maxPerCycle : Nat),
      selectCandidates minScore submitted maxPerCycle [] = []) := by
  refine ⟨?_, ?_, ?_, ?_, fun _ _ => rfl, by decide,
    fun _ _ _ => by simp [selectCandidates, sortDescBy]⟩
  · intro minScore submitted maxPerCycle items
    exact List.length_take_le maxPerCycle _
  · intro minScore submitted maxPerCycle items x hx
    have h1 := List.mem_of_mem_take hx
    rw [sortDescBy] at h1
    have hperm := List.perm_insertionSort
      (fun a b : ScoredListing => b.score ≤ a.score)
      ((items.filter (fun l => minScore ≤ l.score)).filter
        (fun l => !submitted.contains l.id))
    have h2 := hperm.mem_iff.mp h1
    simp only [List.mem_filter, decide_eq_true_eq, Bool.not_eq_eq_eq_not,
      Bool.not_true, Bool.not_eq_true] at h2
    exact ⟨h2.1.1, h2.1.2, h2.2⟩
  · intro minScore submitted maxPerCycle items
    exact List.Pairwise.sublist (List.take_sublist _ _)
      (sortDescBy_pairwise (fun x : ScoredListing => x.score) _)
  · intro l s
    exact sortDescBy_filter_eq (fun x : ScoredListing => x.score) s l

/-- C2 witness: the membership part at a concrete input. -/
theorem c2_witness :
    (⟨"A", 5⟩ : ScoredListing) ∈ selectCandidates 2 ["q"] 2
        [⟨"D", 1⟩, ⟨"A", 5⟩, ⟨"B", 5⟩, ⟨"C", 3⟩] ∧
    (⟨"A", 5⟩ : ScoredListing) ∈ [⟨"D", 1⟩, ⟨"A", 5⟩, ⟨"B", 5⟩, ⟨"C", 3⟩] ∧
    2 ≤ (ScoredListing.mk "A" 5).score ∧
    (["q"].contains (ScoredListing.mk "A" 5).id) = false := by
  have hmem : (⟨"A", 5⟩ : ScoredListing) ∈ selectCandidates 2 ["q"] 2
      [⟨"D", 1⟩, ⟨"A", 5⟩, ⟨"B", 5⟩, ⟨"C", 3⟩] := by decide
  have h := c2_candidate_selection.2.1 2 ["q"] 2
    [⟨"D", 1⟩, ⟨"A", 5⟩, ⟨"B", 5⟩, ⟨"C", 3⟩] ⟨"A", 5⟩ hmem
  exact ⟨hmem, h.1, h.2.1, h.2.2⟩

/-- C9: Forced override frame condition: with a truthy explicit override
(account, model, or pumpfun type), each pipeline uses the supplied option
and its stored selection state (rotation index / alternating flag) is
unchanged by the run. -/
theorem c9_forced_override_frame
    (envX : XNewsEnv) (agentX : Option (Option Nat)) (u : String) (sX : XNewsState)
    (envS : ShowcaseEnv) (agentS : Option (Option Nat)) (mk : String)
    (sS : ShowcaseState)
    (envP : PumpFunEnv) (agentP : Option (Option Nat)) (ty : String)
    (sP : PumpFunState)
    (hu : ¬u = "") (hmk : ¬mk = "") (hty : ¬ty = "") :
    (runXNewsPost envX agentX (some u) sX).username = u ∧
    (runXNewsPost envX agentX (some u) sX).state.idx = sX.idx ∧
    (runImageShowcase envS agentS (some mk) sS).modelKey = mk ∧
    (runImageShowcase envS agentS (some mk) sS).state.modelIndex = sS.modelIndex ∧
    (runPumpFunPost envP agentP (some ty) sP).usedType = ty ∧
    (runPumpFunPost envP agentP (some ty) sP).state.pumpfunType = sP.pumpfunType := by
  have hemp : ∀ w : String, ¬w = "" → w.isEmpty = false := by
    intro w hw
    cases hh : w.isEmpty with
    | false => rfl
    | true => exact absurd ((String.isEmpty_iff w).mp hh) hw
  have hsu : strTruthy (some u) = true := by
    simp [strTruthy, hemp u hu]
  have hsm : strTruthy (some mk) = true := by
    simp [strTruthy, hemp mk hmk]
  have hst : strTruthy (some ty) = true := by
    simp [strTruthy, hemp ty hty]
  refine ⟨?_, ?_, ?_, ?_, ?_, ?_⟩
  · rcases envX with ⟨fr, gt, bu⟩
    cases fr with
    | error e => simp [runXNewsPost, hsu]
    | ok parsed =>
      by_cases h : (fetchLatestNews parsed u sX.window).1.isEmpty <;>
        simp [runXNewsPost, hsu, h]
  · rcases envX with ⟨fr, gt, bu⟩
    cases fr with
    | error e => simp [runXNewsPost, hsu]
    | ok parsed =>
      by_cases h : (fetchLatestNews parsed u sX.window).1.isEmpty <;>
        simp [runXNewsPost, hsu, h]
  · simp [runImageShowcase, hsm]
  · simp [runImageShowcase, hsm]
  · by_cases h : (if ty = "trending" then envP.trending else envP.movers).tokens = [] <;>
      simp [runPumpFunPost, hst, h]
  · by_cases h : (if ty = "trending" then envP.trending else envP.movers).tokens = [] <;>
      simp [runPumpFunPost, hst, h]

/-- C9 witness: a concrete forced run of each pipeline. -/
theorem c9_witness :
    (runXNewsPost ⟨Except.ok none, none, none⟩ none (some "zauthx402") ⟨[], 4⟩).username =
        "zauthx402" ∧
    (runXNewsPost ⟨Except.ok none, none, none⟩ none (some "zauthx402") ⟨[], 4⟩).state.idx = 4 ∧
    (runImageShowcase ⟨"t", none, "u", none⟩ none (some "seedream") ⟨2⟩).modelKey =
        "seedream" ∧
    (runImageShowcase ⟨"t", none, "u", none⟩ none (some "seedream") ⟨2⟩).state.modelIndex = 2 ∧
    (runPumpFunPost ⟨⟨[], none, []⟩, ⟨[], none, []⟩, "d", "i"⟩ none (some "movers")
        ⟨"trending"⟩).usedType = "movers" ∧
    (runPumpFunPost ⟨⟨[], none, []⟩, ⟨[], none, []⟩, "d", "i"⟩ none (some "movers")
        ⟨"trending"⟩).state.pumpfunType = "trending" :=
  c9_forced_override_frame ⟨Except.ok none, none, none⟩ none "zauthx402" ⟨[], 4⟩
    ⟨"t", none, "u", none⟩ none "seedream" ⟨2⟩
    ⟨⟨[], none, []⟩, ⟨[], none, []⟩, "d", "i"⟩ none "movers" ⟨"trending"⟩
    (by decide) (by decide) (by decide)

/-- A concrete X News environment whose fetch parses to one fresh item. -/
def xnewsEnvOneItem : XNewsEnv :=
  ⟨Except.ok (some ⟨[⟨some "https://x.com/solana/status/1", some "Launch",
      "hello world", 5, some "Positive"⟩], none⟩),
    some "Big News", none⟩

/-- A concrete X News environment whose fetch response parses to nothing. -/
def xnewsEnvNoNews : XNewsEnv := ⟨Except.ok none, none, none⟩

/-- C5 counterexample: a preview run (`agent` is `null`) makes no publish
call, yet the dedup window is updated with the fetched item's URL — so the
window is not updated *only* on runs whose content was actually published. -/
theorem c5_counterexample :
    (runXNewsPost xnewsEnvOneItem none none ⟨[], 0⟩).publishCalls = [] ∧
    (runXNewsPost xnewsEnvOneItem none none ⟨[], 0⟩).state.window =
      ["https://x.com/solana/status/1"] := by
  constructor <;> rfl

/-- C5 amended: every X News run checks the dedup window when filtering the
fetched items (no fetched item kept as novel is already in the window); a
run that throws during fetch or finds no novel news leaves the window
unchanged; and a run that reaches the posting step records the top item's
URL into the window *unconditionally* — also when the agent was absent
(preview) or the publish call failed — rather than only on an actual
publish. -/
theorem c5_amended_record_on_completed_runs
    (env : XNewsEnv) (agent : Option (Option Nat)) (force : Option String)
    (s : XNewsState) :
    (∀ (parsed : Option ParsedNews) (username : String),
      ∀ i ∈ (fetchLatestNews parsed username s.window).1,
        windowMember s.window i.news_url = false) ∧
    (∀ e, (runXNewsPost env agent force s).result = Except.error e →
      (runXNewsPost env agent force s).state.window = s.window) ∧
    (∀ m, (runXNewsPost env agent force s).result =
        Except.ok (XNewsResult.failure m) →
      (runXNewsPost env agent force s).state.window = s.window) ∧
    (∀ t b j, (runXNewsPost env agent force s).result =
        Except.ok (XNewsResult.success t b j) →
      ∃ u : Option String,
        (runXNewsPost env agent force s).state.window =
          trackNewsUrl MAX_RECENT u s.window) := by
  refine ⟨?_, ?_, ?_, ?_⟩
  · intro parsed username i hi
    cases parsed with
    | none => simp [fetchLatestNews] at hi
    | some p =>
      simp only [fetchLatestNews, List.mem_filter] at hi
      have := hi.2
      simpa using this
  · rcases env with ⟨fr, gt, bu⟩
    cases fr with
    | error e => simp [runXNewsPost]
    | ok parsed =>
      by_cases hni : (fetchLatestNews parsed
          (if strTruthy force then force.getD ""
            else rotationSelect X_NEWS_ACCOUNTS "" s.idx) s.window).1.isEmpty <;>
        simp [runXNewsPost, hni]
  · rcases env with ⟨fr, gt, bu⟩
    cases fr with
    | error e => simp [runXNewsPost]
    | ok parsed =>
      by_cases hni : (fetchLatestNews parsed
          (if strTruthy force then force.getD ""
            else rotationSelect X_NEWS_ACCOUNTS "" s.idx) s.window).1.isEmpty <;>
        simp [runXNewsPost, hni]
  · rcases env with ⟨fr, gt, bu⟩
    cases fr with
    | error e => simp [runXNewsPost]
    | ok parsed =>
      by_cases hni : (fetchLatestNews parsed
          (if strTruthy force then force.getD ""
            else rotationSelect X_NEWS_ACCOUNTS "" s.idx) s.window).1.isEmpty <;>
        simp [runXNewsPost, hni]
      exact ⟨_, rfl⟩

/-- C5 amended witness: the no-news run leaves a non-empty window untouched,
and the one-item preview run records into the window. -/
theorem c5_amended_witness :
    (runXNewsPost xnewsEnvNoNews none none ⟨["w"], 0⟩).state.window = ["w"] ∧
    ∃ u : Option String,
      (runXNewsPost xnewsEnvOneItem none none ⟨[], 0⟩).state.window =
        trackNewsUrl MAX_RECENT u [] :=
  ⟨(c5_amended_record_on_completed_runs xnewsEnvNoNews none none ⟨["w"], 0⟩).2.2.1
      "No news found for @solana" (by rfl),
    (c5_amended_record_on_completed_runs xnewsEnvOneItem none none ⟨[], 0⟩).2.2.2
      _ _ _ (by rfl)⟩

/-- Replace the forum-post id of an X News success result (failures and the
title/body are untouched). -/
def withPostId (pid : Option Nat) : XNewsResult → XNewsResult
  | XNewsResult.failure m => XNewsResult.failure m
  | XNewsResult.success t b _ => XNewsResult.success t b pid

/-- The publish calls a live X News run makes, as a function of the settled
result: exactly one call with the forum title and body on success, none
otherwise. -/
def xnewsSuccessCalls : Except String XNewsResult → List (String × String)
  | Except.ok (XNewsResult.success t b _) => [(t, b)]
  | _ => []

/-- Replace the forum-post id of a PumpFun success result. -/
def withPostIdPF (pid : Option Nat) : PumpFunResult → PumpFunResult
  | PumpFunResult.failure m => PumpFunResult.failure m
  | PumpFunResult.success t b _ => PumpFunResult.success t b pid

/-- The publish calls a live PumpFun run makes, as a function of the result. -/
def pumpfunSuccessCalls : PumpFunResult → List (String × String)
  | PumpFunResult.success t b _ => [(t, b)]
  | _ => []

/-- C8: Preview/live equivalence: for each pipeline and any fixed external
responses, the preview run (`agent` null) and the live run (agent whose
publish succeeds with post id `pid > 0`) produce the same selected option,
the same state transition, and the same forum title and body; the preview
makes no publish call and carries no forum-post id, while the live run's
result is the preview result with the post id `pid` attached and its publish
calls are exactly the one success call. -/
theorem c8_preview_live_equivalence
    (envX : XNewsEnv) (fa : Option String) (sX : XNewsState)
    (envS : ShowcaseEnv) (fm : Option String) (sS : ShowcaseState)
    (envP : PumpFunEnv) (ft : Option String) (sP : PumpFunState)
    (pid : Nat) (hpid : 0 < pid) :
    ((previewXNews envX fa sX).publishCalls = [] ∧
      (previewXNews envX fa sX).username =
        (runXNewsPost envX (some (some pid)) fa sX).username ∧
      (previewXNews envX fa sX).state =
        (runXNewsPost envX (some (some pid)) fa sX).state ∧
      Except.map (withPostId none) (previewXNews envX fa sX).result =
        (previewXNews envX fa sX).result ∧
      (runXNewsPost envX (some (some pid)) fa sX).result =
        Except.map (withPostId (some pid)) (previewXNews envX fa sX).result ∧
      (runXNewsPost envX (some (some pid)) fa sX).publishCalls =
        xnewsSuccessCalls (previewXNews envX fa sX).result) ∧
    ((previewImageShowcase envS fm sS).publishCalls = [] ∧
      (previewImageShowcase envS fm sS).modelKey =
        (runImageShowcase envS (some (some pid)) fm sS).modelKey ∧
      (previewImageShowcase envS fm sS).state =
        (runImageShowcase envS (some (some pid)) fm sS).state ∧
      (previewImageShowcase envS fm sS).result.title =
        (runImageShowcase envS (some (some pid)) fm sS).result.title ∧
      (previewImageShowcase envS fm sS).result.body =
        (runImageShowcase envS (some (some pid)) fm sS).result.body ∧
      (previewImageShowcase envS fm sS).result.forumPostId = none ∧
      (runImageShowcase envS (some (some pid)) fm sS).result.forumPostId = some pid ∧
      (runImageShowcase envS (some (some pid)) fm sS).publishCalls =
        [((runImageShowcase envS (some (some pid)) fm sS).result.title,
          (runImageShowcase envS (some (some pid)) fm sS).result.body)]) ∧
    ((previewPumpFun envP ft sP).publishCalls = [] ∧
      (previewPumpFun envP ft sP).usedType =
        (runPumpFunPost envP (some (some pid)) ft sP).usedType ∧
      (previewPumpFun envP ft sP).state =
        (runPumpFunPost envP (some (some pid)) ft sP).state ∧
      withPostIdPF none (previewPumpFun envP ft sP).result =
        (previewPumpFun envP ft sP).result ∧
      (runPumpFunPost envP (some (some pid)) ft sP).result =
        withPostIdPF (some pid) (previewPumpFun envP ft sP).result ∧
      (runPumpFunPost envP (some (some pid)) ft sP).publishCalls =
        pumpfunSuccessCalls (previewPumpFun envP ft sP).result) := by
  have hp0 : ¬pid = 0 := by omega
  refine ⟨?_, ?_, ?_⟩
  · rcases envX with ⟨fr, gt, bu⟩
    cases fr with
    | error e =>
      simp [previewXNews, runXNewsPost, xnewsSuccessCalls, Except.map]
    | ok parsed =>
      by_cases hni : (fetchLatestNews parsed
          (if strTruthy fa then fa.getD ""
            else rotationSelect X_NEWS_ACCOUNTS "" sX.idx) sX.window).1.isEmpty <;>
        simp [previewXNews, runXNewsPost, postToForum, xnewsSuccessCalls,
          withPostId, jsOrNullNat, Except.map, hp0, hni]
  · refine ⟨rfl, rfl, rfl, rfl, rfl, rfl, ?_, rfl⟩
    simp [runImageShowcase, postToForum, jsOrNullNat, hp0]
  · by_cases hni : (if (if strTruthy ft then ft.getD "" else sP.pumpfunType) =
        "trending" then envP.trending else envP.movers).tokens = [] <;>
      simp [previewPumpFun, runPumpFunPost, postToForum, pumpfunSuccessCalls,
        withPostIdPF, jsOrNullNat, hp0, hni]

/-- C8 witness: concrete preview and live runs of the X News pipeline on the
same one-item environment agree on title and body; the preview publishes
nothing and the live run publishes once with post id 7. -/
theorem c8_witness :
    (previewXNews xnewsEnvOneItem none ⟨[], 0⟩).publishCalls = [] ∧
    (runXNewsPost xnewsEnvOneItem (some (some 7)) none ⟨[], 0⟩).result =
      Except.map (withPostId (some 7)) (previewXNews xnewsEnvOneItem none ⟨[], 0⟩).result ∧
    (runXNewsPost xnewsEnvOneItem (some (some 7)) none ⟨[], 0⟩).publishCalls =
      xnewsSuccessCalls (previewXNews xnewsEnvOneItem none ⟨[], 0⟩).result :=
  ⟨(c8_preview_live_equivalence xnewsEnvOneItem none ⟨[], 0⟩
      ⟨"t", none, "u", none⟩ none ⟨0⟩
      ⟨⟨[], none, []⟩, ⟨[], none, []⟩, "d", "i"⟩ none ⟨"trending"⟩
      7 (by decide)).1.1,
   (c8_preview_live_equivalence xnewsEnvOneItem none ⟨[], 0⟩
      ⟨"t", none, "u", none⟩ none ⟨0⟩
      ⟨⟨[], none, []⟩, ⟨[], none, []⟩, "d", "i"⟩ none ⟨"trending"⟩
      7 (by decide)).1.2.2.2.2.1,
   (c8_preview_live_equivalence xnewsEnvOneItem none ⟨[], 0⟩
      ⟨"t", none, "u", none⟩ none ⟨0⟩
      ⟨⟨[], none, []⟩, ⟨[], none, []⟩, "d", "i"⟩ none ⟨"trending"⟩
      7 (by decide)).1.2.2.2.2.2⟩

